import Mathlib

/-!
Formal model of the `duration_helper` crate (src/lib.rs).

The crate implements a trait `DurationHelper` for `u64` and for `f64`,
turning a numeric operand into a `std::time::Duration`, which is a pair
of a `u64` seconds field and a `u32` sub-second nanosecond field.

Modelling conventions:
* `u64` values are natural numbers; arithmetic on them wraps modulo `2^64`
  (Rust release-profile semantics for the plain `*` the crate uses).
* Finite `f64` values are modelled by their exact rational value; `NaN`
  is a separate constructor.  Multiplication by the integral unit
  constants is modelled by exact rational arithmetic; every concrete
  operand appearing in a theorem below makes the double-precision
  product exact, and universally quantified statements are guarded so
  that their conclusions also hold of the IEEE-754 rounded product
  (see the comment on `F64.mulConst`).
* `std::time::Duration` constructors used by the crate are modelled from
  their implementation in Rust's standard library (`core/src/time.rs`):
  `from_nanos` / `from_micros` / `from_millis` split the operand by
  div/mod, `Duration::new` carries a nanosecond argument of `10^9` or
  more into the seconds field, and `from_secs_f64` rounds the value to
  the nearest nanosecond (ties to even) and panics — modelled as `none` —
  for negative, NaN, or `≥ 2^64`-second inputs.
-/

/-- Model of `std::time::Duration`: whole seconds (`u64` field) plus a
sub-second remainder in nanoseconds (`u32` field, kept below `10^9` by
every constructor of the standard library). -/
structure Duration where
  secs : ℕ
  nanos : ℕ
  deriving DecidableEq, Repr

/-- Model of `Duration::from_secs`: `s` whole seconds, no nanoseconds. -/
def Duration.fromSecs (s : ℕ) : Duration := ⟨s, 0⟩

/-- Model of `Duration::from_nanos`: the operand is a count of
nanoseconds, split into whole seconds and a sub-second remainder. -/
def Duration.fromNanos (n : ℕ) : Duration := ⟨n / 1000000000, n % 1000000000⟩

/-- Model of `Duration::from_micros`: the operand is a count of
microseconds; the sub-second part is scaled to nanoseconds. -/
def Duration.fromMicros (n : ℕ) : Duration := ⟨n / 1000000, (n % 1000000) * 1000⟩

/-- Model of `Duration::from_millis`: the operand is a count of
milliseconds; the sub-second part is scaled to nanoseconds. -/
def Duration.fromMillis (n : ℕ) : Duration := ⟨n / 1000, (n % 1000) * 1000000⟩

/-- Model of `Duration::new secs nanos`: a nanosecond argument of `10^9`
or more is carried into the seconds field.  (The `checked_add` of the
carry panics only when the seconds field would overflow `u64`; the crate
only calls `Duration::new` with a zero seconds argument and a `u32`
nanosecond argument, for which the carry is at most `4`.) -/
def Duration.new (s n : ℕ) : Duration :=
  if n < 1000000000 then ⟨s, n⟩ else ⟨s + n / 1000000000, n % 1000000000⟩

/-- Rust `u64` multiplication in a release build: the plain `*` the
crate uses wraps modulo `2^64` on overflow (a debug build would panic
instead). -/
def u64Mul (a b : ℕ) : ℕ := a * b % 2 ^ 64

/-- `impl DurationHelper for u64`, `fn nanos`: `Duration::from_nanos(self)`. -/
def U64.nanos (n : ℕ) : Duration := Duration.fromNanos n

/-- `impl DurationHelper for u64`, `fn micros`: `Duration::from_micros(self)`. -/
def U64.micros (n : ℕ) : Duration := Duration.fromMicros n

/-- `impl DurationHelper for u64`, `fn millis`: `Duration::from_millis(self)`. -/
def U64.millis (n : ℕ) : Duration := Duration.fromMillis n

/-- `impl DurationHelper for u64`, `fn secs`: `Duration::from_secs(self)`. -/
def U64.secs (n : ℕ) : Duration := Duration.fromSecs n

/-- `impl DurationHelper for u64`, `fn hours`: `Duration::from_secs(60 * 60 * self)`. -/
def U64.hours (n : ℕ) : Duration := Duration.fromSecs (u64Mul (60 * 60) n)

/-- `impl DurationHelper for u64`, `fn days`: `Duration::from_secs(60 * 60 * 24 * self)`. -/
def U64.days (n : ℕ) : Duration := Duration.fromSecs (u64Mul (60 * 60 * 24) n)

/-- `impl DurationHelper for u64`, `fn weeks`: `Duration::from_secs(60 * 60 * 24 * 7 * self)`. -/
def U64.weeks (n : ℕ) : Duration := Duration.fromSecs (u64Mul (60 * 60 * 24 * 7) n)

/-- `impl DurationHelper for u64`, `fn months`: `Duration::from_secs(60 * 60 * 24 * 30 * self)`. -/
def U64.months (n : ℕ) : Duration := Duration.fromSecs (u64Mul (60 * 60 * 24 * 30) n)

/-- `impl DurationHelper for u64`, `fn years`: `Duration::from_secs(60 * 60 * 24 * 365 * self)`. -/
def U64.years (n : ℕ) : Duration := Duration.fromSecs (u64Mul (60 * 60 * 24 * 365) n)

/-- Multiplication below the wrap-around threshold is exact. -/
theorem u64Mul_eq_of_lt {a b : ℕ} (h : a * b < 2 ^ 64) : u64Mul a b = a * b :=
  Nat.mod_eq_of_lt h

/-- C1: for every `u64` operand `n` and every unit of one second or
larger, the conversion yields `n` times the unit factor as the seconds
field and a zero nanosecond field, provided the product stays in the
`u64` range; in particular `n.secs()` is exactly `(n, 0)`. -/
theorem c1_whole_number_units (n : ℕ) (h : n < 2 ^ 64) :
    U64.secs n = ⟨n, 0⟩ ∧
    (n * 3600 < 2 ^ 64 → U64.hours n = ⟨n * 3600, 0⟩) ∧
    (n * 86400 < 2 ^ 64 → U64.days n = ⟨n * 86400, 0⟩) ∧
    (n * 604800 < 2 ^ 64 → U64.weeks n = ⟨n * 604800, 0⟩) ∧
    (n * 2592000 < 2 ^ 64 → U64.months n = ⟨n * 2592000, 0⟩) ∧
    (n * 31536000 < 2 ^ 64 → U64.years n = ⟨n * 31536000, 0⟩) := by
  refine ⟨rfl, fun hh => ?_, fun hd => ?_, fun hw => ?_, fun hm => ?_, fun hy => ?_⟩
  · have hx : (60 * 60 : ℕ) * n < 2 ^ 64 := by omega
    simp only [U64.hours, u64Mul_eq_of_lt hx, Duration.fromSecs, Duration.mk.injEq]
    exact ⟨by ring, trivial⟩
  · have hx : (60 * 60 * 24 : ℕ) * n < 2 ^ 64 := by omega
    simp only [U64.days, u64Mul_eq_of_lt hx, Duration.fromSecs, Duration.mk.injEq]
    exact ⟨by ring, trivial⟩
  · have hx : (60 * 60 * 24 * 7 : ℕ) * n < 2 ^ 64 := by omega
    simp only [U64.weeks, u64Mul_eq_of_lt hx, Duration.fromSecs, Duration.mk.injEq]
    exact ⟨by ring, trivial⟩
  · have hx : (60 * 60 * 24 * 30 : ℕ) * n < 2 ^ 64 := by omega
    simp only [U64.months, u64Mul_eq_of_lt hx, Duration.fromSecs, Duration.mk.injEq]
    exact ⟨by ring, trivial⟩
  · have hx : (60 * 60 * 24 * 365 : ℕ) * n < 2 ^ 64 := by omega
    simp only [U64.years, u64Mul_eq_of_lt hx, Duration.fromSecs, Duration.mk.injEq]
    exact ⟨by ring, trivial⟩

/-- Witness for C1 at concrete inputs. -/
theorem c1_whole_number_units_witness :
    U64.secs 5 = ⟨5, 0⟩ ∧ U64.hours 2 = ⟨7200, 0⟩ :=
  ⟨(c1_whole_number_units 5 (by norm_num)).1,
   (c1_whole_number_units 2 (by norm_num)).2.1 (by norm_num)⟩

/-- C5: the `u64` sub-second conversions are exact integer scaling:
`n.nanos() = (n / 10^9, n % 10^9)`, `n.micros() = (n / 10^6, (n % 10^6) * 1000)`,
`n.millis() = (n / 10^3, (n % 10^3) * 10^6)`, for every `u64` operand. -/
theorem c5_subsecond_integer_scaling (n : ℕ) (_h : n < 2 ^ 64) :
    U64.nanos n = ⟨n / 10 ^ 9, n % 10 ^ 9⟩ ∧
    U64.micros n = ⟨n / 10 ^ 6, n % 10 ^ 6 * 1000⟩ ∧
    U64.millis n = ⟨n / 10 ^ 3, n % 10 ^ 3 * 10 ^ 6⟩ := by
  refine ⟨?_, ?_, ?_⟩ <;> rfl

/-- Witness for C5 at a concrete input. -/
theorem c5_subsecond_integer_scaling_witness :
    U64.micros 1234567 = ⟨1234567 / 10 ^ 6, 1234567 % 10 ^ 6 * 1000⟩ :=
  (c5_subsecond_integer_scaling 1234567 (by norm_num)).2.1

/-- C8 counterexample: on the whole-number path the multiplication DOES
silently wrap modulo `2^64` (Rust release semantics for the plain `*`
the crate uses): at `n = 2^64 / 31536000 + 1 = 584942417356`, `n.years()`
stores exactly the wrapped value `n * 31536000 % 2^64`, which differs
from the true product — contradicting the claim that the result is never
the silently wrapped value. -/
theorem c8_counterexample :
    U64.years 584942417356 = ⟨584942417356 * 31536000 % 2 ^ 64, 0⟩ ∧
    584942417356 * 31536000 % 2 ^ 64 ≠ 584942417356 * 31536000 := by
  constructor
  · decide
  · norm_num

/-- C8 amended: for every unit of one second or larger, when `n` times
the unit factor overflows `u64`, the result's seconds field is the
product reduced modulo `2^64` (a silent wrap in a release build; a
debug build would panic), hence differs from the mathematical product;
no saturating or checked arithmetic is used. -/
theorem c8_amended (n : ℕ) (h : n < 2 ^ 64) :
    (2 ^ 64 ≤ 3600 * n →
      U64.hours n = ⟨3600 * n % 2 ^ 64, 0⟩ ∧ (U64.hours n).secs ≠ 3600 * n) ∧
    (2 ^ 64 ≤ 86400 * n →
      U64.days n = ⟨86400 * n % 2 ^ 64, 0⟩ ∧ (U64.days n).secs ≠ 86400 * n) ∧
    (2 ^ 64 ≤ 604800 * n →
      U64.weeks n = ⟨604800 * n % 2 ^ 64, 0⟩ ∧ (U64.weeks n).secs ≠ 604800 * n) ∧
    (2 ^ 64 ≤ 2592000 * n →
      U64.months n = ⟨2592000 * n % 2 ^ 64, 0⟩ ∧ (U64.months n).secs ≠ 2592000 * n) ∧
    (2 ^ 64 ≤ 31536000 * n →
      U64.years n = ⟨31536000 * n % 2 ^ 64, 0⟩ ∧ (U64.years n).secs ≠ 31536000 * n) := by
  refine ⟨fun hov => ⟨rfl, ?_⟩, fun hov => ⟨rfl, ?_⟩, fun hov => ⟨rfl, ?_⟩,
    fun hov => ⟨rfl, ?_⟩, fun hov => ⟨rfl, ?_⟩⟩
  · show 3600 * n % 2 ^ 64 ≠ 3600 * n
    have := Nat.mod_lt (3600 * n) (y := 2 ^ 64) (by norm_num)
    omega
  · show 86400 * n % 2 ^ 64 ≠ 86400 * n
    have := Nat.mod_lt (86400 * n) (y := 2 ^ 64) (by norm_num)
    omega
  · show 604800 * n % 2 ^ 64 ≠ 604800 * n
    have := Nat.mod_lt (604800 * n) (y := 2 ^ 64) (by norm_num)
    omega
  · show 2592000 * n % 2 ^ 64 ≠ 2592000 * n
    have := Nat.mod_lt (2592000 * n) (y := 2 ^ 64) (by norm_num)
    omega
  · show 31536000 * n % 2 ^ 64 ≠ 31536000 * n
    have := Nat.mod_lt (31536000 * n) (y := 2 ^ 64) (by norm_num)
    omega

/-- Witness for C8 amended at `n = 2^63`, where every unit's product
overflows. -/
theorem c8_amended_witness :
    (U64.hours 9223372036854775808).secs ≠ 3600 * 9223372036854775808 ∧
    (U64.days 9223372036854775808).secs ≠ 86400 * 9223372036854775808 ∧
    (U64.weeks 9223372036854775808).secs ≠ 604800 * 9223372036854775808 ∧
    (U64.months 9223372036854775808).secs ≠ 2592000 * 9223372036854775808 ∧
    (U64.years 9223372036854775808).secs ≠ 31536000 * 9223372036854775808 :=
  ⟨((c8_amended 9223372036854775808 (by norm_num)).1 (by norm_num)).2,
   ((c8_amended 9223372036854775808 (by norm_num)).2.1 (by norm_num)).2,
   ((c8_amended 9223372036854775808 (by norm_num)).2.2.1 (by norm_num)).2,
   ((c8_amended 9223372036854775808 (by norm_num)).2.2.2.1 (by norm_num)).2,
   ((c8_amended 9223372036854775808 (by norm_num)).2.2.2.2 (by norm_num)).2⟩

/-- Model of an `f64` operand: either `NaN`, or a finite value given by
its exact rational value (every finite double is a rational number).
Infinities do not occur among the operands considered here. -/
inductive F64 where
  | nan : F64
  | fin : ℚ → F64
  deriving DecidableEq

/-- Multiplication of an `f64` operand by one of the crate's integral
unit constants (`1_000.0`, `1_000_000.0`, `3600.0`, ..., folded by the
compiler): `NaN` is absorbing; a finite value is multiplied exactly.
The IEEE-754 product additionally rounds to nearest, which this exact
model drops.  The theorems below therefore assert exact result values
only at concrete operands whose double-precision product is exact, and
guard universally quantified conclusions so that they also hold of the
rounded product: the rounded product has the same sign and NaN-ness as
the exact one, an exact product at or above `2^64` rounds to a double
at or above `2^64`, and an exact product below `2^64 - 1024` rounds to
a double below `2^64`. -/
def F64.mulConst : F64 → ℚ → F64
  | .nan, _ => .nan
  | .fin q, c => .fin (q * c)

/-- Rust `as u32` cast of an `f64`: saturating — `NaN` becomes `0`,
negative values become `0`, the value is otherwise truncated toward zero
and clamped to `u32::MAX = 4294967295`. -/
def f64AsU32 : F64 → ℕ
  | .nan => 0
  | .fin q => if q < 0 then 0 else min ⌊q⌋.toNat 4294967295

/-- Rounding to the nearest integer with ties to even, on exact rational
values: the rounding `Duration::try_from_secs` in Rust's standard
library applies at nanosecond granularity. -/
def rte (x : ℚ) : ℤ :=
  if x - ⌊x⌋ < 1 / 2 then ⌊x⌋
  else if 1 / 2 < x - ⌊x⌋ then ⌊x⌋ + 1
  else if ⌊x⌋ % 2 = 0 then ⌊x⌋ else ⌊x⌋ + 1

/-- Model of `Duration::from_secs_f64`: panics (`none`) for a negative,
`NaN`, or `≥ 2^64`-second value; otherwise rounds the value to the
nearest nanosecond (ties to even) and splits the resulting nanosecond
count into whole seconds and a sub-second remainder.  (In the standard
library the split-then-round is done on the fraction bits of the double;
on the exact value of the double the net effect is this round-then-split
because `s * 10^9` is even for every whole-second part `s`.) -/
def fromSecsF64 : F64 → Option Duration
  | .nan => none
  | .fin q =>
    if q < 0 ∨ 2 ^ 64 ≤ q then none
    else some ⟨(rte (q * 10 ^ 9)).toNat / 10 ^ 9, (rte (q * 10 ^ 9)).toNat % 10 ^ 9⟩

/-- `impl DurationHelper for f64`, `fn nanos`: `Duration::new(0, self as u32)`. -/
def F64.nanos (f : F64) : Duration := Duration.new 0 (f64AsU32 f)

/-- `impl DurationHelper for f64`, `fn micros`: `Duration::new(0, (self * 1_000.0) as u32)`. -/
def F64.micros (f : F64) : Duration := Duration.new 0 (f64AsU32 (f.mulConst 1000))

/-- `impl DurationHelper for f64`, `fn millis`: `Duration::new(0, (self * 1_000_000.0) as u32)`. -/
def F64.millis (f : F64) : Duration := Duration.new 0 (f64AsU32 (f.mulConst 1000000))

/-- `impl DurationHelper for f64`, `fn secs`: `Duration::from_secs_f64(self)`. -/
def F64.secs (f : F64) : Option Duration := fromSecsF64 f

/-- `impl DurationHelper for f64`, `fn hours`: `Duration::from_secs_f64(60.0 * 60.0 * self)`. -/
def F64.hours (f : F64) : Option Duration := fromSecsF64 (f.mulConst (60 * 60))

/-- `impl DurationHelper for f64`, `fn days`: `Duration::from_secs_f64(60.0 * 60.0 * 24.0 * self)`. -/
def F64.days (f : F64) : Option Duration := fromSecsF64 (f.mulConst (60 * 60 * 24))

/-- `impl DurationHelper for f64`, `fn weeks`: `Duration::from_secs_f64(60.0 * 60.0 * 24.0 * 7.0 * self)`. -/
def F64.weeks (f : F64) : Option Duration := fromSecsF64 (f.mulConst (60 * 60 * 24 * 7))

/-- `impl DurationHelper for f64`, `fn months`: `Duration::from_secs_f64(60.0 * 60.0 * 24.0 * 30.0 * self)`. -/
def F64.months (f : F64) : Option Duration := fromSecsF64 (f.mulConst (60 * 60 * 24 * 30))

/-- `impl DurationHelper for f64`, `fn years`: `Duration::from_secs_f64(60.0 * 60.0 * 24.0 * 365.0 * self)`. -/
def F64.years (f : F64) : Option Duration := fromSecsF64 (f.mulConst (60 * 60 * 24 * 365))

/-- Normalization: the constructor `Duration::new` always leaves a
nanosecond field below `10^9`. -/
theorem Duration.new_nanos_lt (s n : ℕ) : (Duration.new s n).nanos < 1000000000 := by
  unfold Duration.new
  split
  · next h => exact h
  · exact Nat.mod_lt _ (by norm_num)

/-- Reconstruction: for a `u32` nanosecond argument and a zero seconds
argument, `Duration::new` splits the argument by div/mod `10^9`. -/
theorem Duration.new_zero_eq (n : ℕ) :
    Duration.new 0 n = ⟨n / 1000000000, n % 1000000000⟩ := by
  unfold Duration.new
  split
  · next h => rw [Nat.div_eq_of_lt h, Nat.mod_eq_of_lt h]
  · rw [Nat.zero_add]

/-- Saturation: the `as u32` cast never exceeds `u32::MAX`. -/
theorem f64AsU32_le (f : F64) : f64AsU32 f ≤ 4294967295 := by
  cases f with
  | nan => exact Nat.zero_le _
  | fin q =>
    show (if q < 0 then 0 else min ⌊q⌋.toNat 4294967295) ≤ 4294967295
    split
    · exact Nat.zero_le _
    · exact Nat.min_le_right _ _

/-- C2 counterexample: a sub-second-unit fractional operand whose
nanosecond equivalent is at least `10^9` is NOT stored as-is with zero
whole seconds: `Duration::new` normalizes it.  At `f = 2000000000.0`
(an exactly representable double), `f.nanos()` is `(2, 0)`, not
`(0, 2000000000)` as the claim requires. -/
theorem c2_counterexample :
    F64.nanos (F64.fin 2000000000) = ⟨2, 0⟩ ∧
    F64.nanos (F64.fin 2000000000) ≠ ⟨0, 2000000000⟩ := by
  constructor
  · decide
  · decide

/-- C2 amended: for each of the three sub-second-unit fractional
conversions, when the truncated (saturating, hence at most `u32::MAX =
4294967295`) nanosecond equivalent `v` of the operand is at least
`10^9`, the result is NOT `v` stored as-is with zero whole seconds: the
constructor `Duration::new` carries the excess into the seconds field,
yielding `(v / 10^9, v % 10^9)` with a nonzero seconds field. -/
theorem c2_amended (f : F64) :
    f64AsU32 f ≤ 4294967295 ∧
    f64AsU32 (f.mulConst 1000) ≤ 4294967295 ∧
    f64AsU32 (f.mulConst 1000000) ≤ 4294967295 ∧
    (1000000000 ≤ f64AsU32 f →
      F64.nanos f = ⟨f64AsU32 f / 1000000000, f64AsU32 f % 1000000000⟩ ∧
      (F64.nanos f).secs ≠ 0) ∧
    (1000000000 ≤ f64AsU32 (f.mulConst 1000) →
      F64.micros f = ⟨f64AsU32 (f.mulConst 1000) / 1000000000,
        f64AsU32 (f.mulConst 1000) % 1000000000⟩ ∧
      (F64.micros f).secs ≠ 0) ∧
    (1000000000 ≤ f64AsU32 (f.mulConst 1000000) →
      F64.millis f = ⟨f64AsU32 (f.mulConst 1000000) / 1000000000,
        f64AsU32 (f.mulConst 1000000) % 1000000000⟩ ∧
      (F64.millis f).secs ≠ 0) := by
  refine ⟨f64AsU32_le f, f64AsU32_le _, f64AsU32_le _,
    fun h => ⟨Duration.new_zero_eq _, ?_⟩, fun h => ⟨Duration.new_zero_eq _, ?_⟩,
    fun h => ⟨Duration.new_zero_eq _, ?_⟩⟩
  · rw [show F64.nanos f = Duration.new 0 (f64AsU32 f) from rfl, Duration.new_zero_eq]
    show f64AsU32 f / 1000000000 ≠ 0
    omega
  · rw [show F64.micros f = Duration.new 0 (f64AsU32 (f.mulConst 1000)) from rfl,
      Duration.new_zero_eq]
    show f64AsU32 (f.mulConst 1000) / 1000000000 ≠ 0
    omega
  · rw [show F64.millis f = Duration.new 0 (f64AsU32 (f.mulConst 1000000)) from rfl,
      Duration.new_zero_eq]
    show f64AsU32 (f.mulConst 1000000) / 1000000000 ≠ 0
    omega

/-- Witness for C2 amended: `3000000000.0.nanos()`, `1500000.0.micros()`
and `2000.0.millis()` all carry into the seconds field. -/
theorem c2_amended_witness :
    (F64.nanos (F64.fin 3000000000)).secs ≠ 0 ∧
    (F64.micros (F64.fin 1500000)).secs ≠ 0 ∧
    (F64.millis (F64.fin 2000)).secs ≠ 0 :=
  ⟨((c2_amended (F64.fin 3000000000)).2.2.2.1 (by decide)).2,
   ((c2_amended (F64.fin 1500000)).2.2.2.2.1 (by
      show 1000000000 ≤ f64AsU32 (F64.fin ((1500000 : ℚ) * 1000))
      rw [show ((1500000 : ℚ) * 1000) = 1500000000 by norm_num]
      decide)).2,
   ((c2_amended (F64.fin 2000)).2.2.2.2.2 (by
      show 1000000000 ≤ f64AsU32 (F64.fin ((2000 : ℚ) * 1000000))
      rw [show ((2000 : ℚ) * 1000000) = 2000000000 by norm_num]
      decide)).2⟩

/-- Normalization of `from_secs_f64` results: whenever the conversion
returns a value, its nanosecond field is below `10^9`. -/
theorem fromSecsF64_nanos_lt (f : F64) (d : Duration) (h : fromSecsF64 f = some d) :
    d.nanos < 1000000000 := by
  cases f with
  | nan => exact absurd h (by simp [fromSecsF64])
  | fin q =>
    by_cases hc : q < 0 ∨ 2 ^ 64 ≤ q
    · rw [show fromSecsF64 (F64.fin q) = none from if_pos hc] at h
      exact Option.noConfusion h
    · rw [show fromSecsF64 (F64.fin q) =
            some ⟨(rte (q * 10 ^ 9)).toNat / 10 ^ 9, (rte (q * 10 ^ 9)).toNat % 10 ^ 9⟩
          from if_neg hc] at h
      rcases Option.some.inj h with rfl
      exact Nat.mod_lt _ (by norm_num)

/-- C3: every interval produced by any of the eighteen conversions (both
implementations, all nine units) has its nanosecond field in
`[0, 999999999]`; a value of `10^9` or more is never stored there. -/
theorem c3_nanos_always_normalized :
    (∀ n : ℕ, n < 2 ^ 64 →
      (U64.nanos n).nanos < 1000000000 ∧ (U64.micros n).nanos < 1000000000 ∧
      (U64.millis n).nanos < 1000000000 ∧ (U64.secs n).nanos < 1000000000 ∧
      (U64.hours n).nanos < 1000000000 ∧ (U64.days n).nanos < 1000000000 ∧
      (U64.weeks n).nanos < 1000000000 ∧ (U64.months n).nanos < 1000000000 ∧
      (U64.years n).nanos < 1000000000) ∧
    (∀ f : F64,
      (F64.nanos f).nanos < 1000000000 ∧ (F64.micros f).nanos < 1000000000 ∧
      (F64.millis f).nanos < 1000000000) ∧
    (∀ f : F64, ∀ d : Duration,
      F64.secs f = some d ∨ F64.hours f = some d ∨ F64.days f = some d ∨
        F64.weeks f = some d ∨ F64.months f = some d ∨ F64.years f = some d →
      d.nanos < 1000000000) := by
  refine ⟨fun n _ => ?_, fun f => ?_, fun f d h => ?_⟩
  · refine ⟨?_, ?_, ?_, ?_, ?_, ?_, ?_, ?_, ?_⟩
    · exact Nat.mod_lt _ (by norm_num)
    · show n % 1000000 * 1000 < 1000000000
      omega
    · show n % 1000 * 1000000 < 1000000000
      omega
    · exact show (0 : ℕ) < 1000000000 by norm_num
    · exact show (0 : ℕ) < 1000000000 by norm_num
    · exact show (0 : ℕ) < 1000000000 by norm_num
    · exact show (0 : ℕ) < 1000000000 by norm_num
    · exact show (0 : ℕ) < 1000000000 by norm_num
    · exact show (0 : ℕ) < 1000000000 by norm_num
  · exact ⟨Duration.new_nanos_lt _ _, Duration.new_nanos_lt _ _, Duration.new_nanos_lt _ _⟩
  · rcases h with h | h | h | h | h | h
    · exact fromSecsF64_nanos_lt f d h
    · exact fromSecsF64_nanos_lt (f.mulConst (60 * 60)) d h
    · exact fromSecsF64_nanos_lt (f.mulConst (60 * 60 * 24)) d h
    · exact fromSecsF64_nanos_lt (f.mulConst (60 * 60 * 24 * 7)) d h
    · exact fromSecsF64_nanos_lt (f.mulConst (60 * 60 * 24 * 30)) d h
    · exact fromSecsF64_nanos_lt (f.mulConst (60 * 60 * 24 * 365)) d h

/-- Witness for C3 at concrete inputs. -/
theorem c3_nanos_always_normalized_witness :
    (U64.micros 1234567).nanos < 1000000000 ∧
    (F64.millis (F64.fin 10000)).nanos < 1000000000 :=
  ⟨(c3_nanos_always_normalized.1 1234567 (by norm_num)).2.1,
   (c3_nanos_always_normalized.2.1 (F64.fin 10000)).2.2⟩

/-- C7: the fractional nanosecond conversion truncates toward zero:
`0.5.nanos()` is `(0, 0)` and `3.5.nanos()` is `(0, 3)` — each with zero
whole seconds, never rounded to the nearest nanosecond. -/
theorem c7_fractional_nanos_truncation :
    F64.nanos (F64.fin (1 / 2)) = ⟨0, 0⟩ ∧ F64.nanos (F64.fin (7 / 2)) = ⟨0, 3⟩ := by
  constructor
  · simp only [F64.nanos, f64AsU32, Duration.new]
    norm_num
  · simp only [F64.nanos, f64AsU32, Duration.new]
    norm_num
    decide

/-- Reconstruction: with a zero seconds argument, the total nanosecond
content of `Duration::new` equals the nanosecond argument. -/
theorem Duration.new_zero_total (n : ℕ) :
    (Duration.new 0 n).secs * 1000000000 + (Duration.new 0 n).nanos = n := by
  rw [Duration.new_zero_eq]
  show n / 1000000000 * 1000000000 + n % 1000000000 = n
  omega

/-- C10: the fractional sub-second conversions go through a saturating
`f64`-to-`u32` cast, so their total nanosecond content never exceeds
`u32::MAX = 4294967295` — i.e. at most 4 seconds plus 294967295
nanoseconds; in particular `10000.0.millis()` is `(4, 294967295)`, not
10 seconds; and a negative or NaN operand yields the zero interval. -/
theorem c10_saturating_cast :
    (∀ f : F64,
      (F64.nanos f).secs * 1000000000 + (F64.nanos f).nanos ≤ 4294967295 ∧
      (F64.micros f).secs * 1000000000 + (F64.micros f).nanos ≤ 4294967295 ∧
      (F64.millis f).secs * 1000000000 + (F64.millis f).nanos ≤ 4294967295) ∧
    F64.millis (F64.fin 10000) = ⟨4, 294967295⟩ ∧
    F64.millis (F64.fin 10000) ≠ ⟨10, 0⟩ ∧
    (∀ q : ℚ, q < 0 →
      F64.nanos (F64.fin q) = ⟨0, 0⟩ ∧ F64.micros (F64.fin q) = ⟨0, 0⟩ ∧
      F64.millis (F64.fin q) = ⟨0, 0⟩) ∧
    F64.nanos F64.nan = ⟨0, 0⟩ ∧ F64.micros F64.nan = ⟨0, 0⟩ ∧
    F64.millis F64.nan = ⟨0, 0⟩ := by
  have h10g : F64.millis (F64.fin 10000) = ⟨4, 294967295⟩ := by
    show Duration.new 0 (f64AsU32 (F64.fin ((10000 : ℚ) * 1000000))) = ⟨4, 294967295⟩
    rw [show ((10000 : ℚ) * 1000000) = 10000000000 by norm_num]
    decide
  refine ⟨fun f => ?_, h10g, by rw [h10g]; decide, fun q hq => ?_, by decide, by decide,
    by decide⟩
  · refine ⟨?_, ?_, ?_⟩
    · rw [show F64.nanos f = Duration.new 0 (f64AsU32 f) from rfl, Duration.new_zero_total]
      exact f64AsU32_le f
    · rw [show F64.micros f = Duration.new 0 (f64AsU32 (f.mulConst 1000)) from rfl,
        Duration.new_zero_total]
      exact f64AsU32_le _
    · rw [show F64.millis f = Duration.new 0 (f64AsU32 (f.mulConst 1000000)) from rfl,
        Duration.new_zero_total]
      exact f64AsU32_le _
  · have h1000 : q * 1000 < 0 := mul_neg_of_neg_of_pos hq (by norm_num)
    have h1000000 : q * 1000000 < 0 := mul_neg_of_neg_of_pos hq (by norm_num)
    refine ⟨?_, ?_, ?_⟩
    · rw [show F64.nanos (F64.fin q) = Duration.new 0 (f64AsU32 (F64.fin q)) from rfl,
        show f64AsU32 (F64.fin q) = if q < 0 then 0 else min ⌊q⌋.toNat 4294967295 from rfl,
        if_pos hq]
      decide
    · rw [show F64.micros (F64.fin q) = Duration.new 0 (f64AsU32 (F64.fin (q * 1000))) from rfl,
        show f64AsU32 (F64.fin (q * 1000)) =
          if q * 1000 < 0 then 0 else min ⌊q * 1000⌋.toNat 4294967295 from rfl,
        if_pos h1000]
      decide
    · rw [show F64.millis (F64.fin q) = Duration.new 0 (f64AsU32 (F64.fin (q * 1000000))) from rfl,
        show f64AsU32 (F64.fin (q * 1000000)) =
          if q * 1000000 < 0 then 0 else min ⌊q * 1000000⌋.toNat 4294967295 from rfl,
        if_pos h1000000]
      decide

/-- Witness for C10 at concrete inputs. -/
theorem c10_saturating_cast_witness :
    F64.nanos (F64.fin (-1)) = ⟨0, 0⟩ ∧
    (F64.millis (F64.fin 10000)).secs * 1000000000 + (F64.millis (F64.fin 10000)).nanos
      ≤ 4294967295 :=
  ⟨(c10_saturating_cast.2.2.2.1 (-1) (by norm_num)).1,
   (c10_saturating_cast.1 (F64.fin 10000)).2.2⟩

/-- Nonnegativity of nearest-integer rounding on nonnegative values. -/
theorem rte_nonneg {x : ℚ} (hx : 0 ≤ x) : 0 ≤ rte x := by
  have h0 : (0 : ℤ) ≤ ⌊x⌋ := Int.floor_nonneg.mpr hx
  unfold rte
  split
  · exact h0
  · split
    · omega
    · split
      · exact h0
      · omega

/-- Nearest-integer rounding is within half of the value. -/
theorem rte_err (x : ℚ) : |(rte x : ℚ) - x| ≤ 1 / 2 := by
  have h1 : (⌊x⌋ : ℚ) ≤ x := Int.floor_le x
  have h2 : x - ⌊x⌋ < 1 := by
    have := Int.lt_floor_add_one x
    linarith
  rw [abs_le]
  unfold rte
  split
  · next h => constructor <;> linarith
  · split
    · next h => constructor <;> push_cast <;> linarith
    · next h h2' =>
        have he : x - ⌊x⌋ = 1 / 2 := le_antisymm (not_lt.mp h2') (not_lt.mp h)
        split
        · constructor <;> linarith
        · constructor <;> push_cast <;> linarith

/-- At an exact half-way tie, nearest-integer rounding picks the even
integer. -/
theorem rte_even_of_tie {x : ℚ} (h : x - (⌊x⌋ : ℚ) = 1 / 2) : rte x % 2 = 0 := by
  unfold rte
  rw [if_neg (by rw [h]; norm_num), if_neg (by rw [h]; norm_num)]
  split
  · next he => exact he
  · next he => omega

/-- C4 counterexample: the fractional conversion for units of one second
or larger does NOT truncate the sub-nanosecond residue — `from_secs_f64`
rounds to the nearest nanosecond.  At the exactly representable double
`f = 1 + 2^-30` (whose nanosecond residue is `≈ 0.93` ns), `f.secs()` is
`(1, 1)`, while truncation as claimed would give `(1, 0)`. -/
theorem c4_counterexample :
    F64.secs (F64.fin (1 + 1 / 2 ^ 30)) = some ⟨1, 1⟩ ∧
    F64.secs (F64.fin (1 + 1 / 2 ^ 30)) ≠ some ⟨1, 0⟩ := by
  have h : F64.secs (F64.fin (1 + 1 / 2 ^ 30)) = some ⟨1, 1⟩ := by
    simp only [F64.secs, fromSecsF64, rte]
    norm_num
    omega
  exact ⟨h, by rw [h]; decide⟩

/-- C4 amended: each unit of one second or larger computes its
total-seconds double (the operand times the folded unit constant) and
passes it to `from_secs_f64`; for every nonnegative total-seconds value
`x` below `2^64`, that decomposition yields a normalized pair whose
total nanosecond count is `x * 10^9` rounded to the NEAREST integer —
within half a nanosecond, with an exact half-way tie resolved to the
even integer — rather than the truncation the claim describes. -/
theorem c4_amended (x : ℚ) (h0 : 0 ≤ x) (h1 : x < 2 ^ 64) :
    (∀ f : F64,
      F64.secs f = fromSecsF64 f ∧
      F64.hours f = fromSecsF64 (f.mulConst (60 * 60)) ∧
      F64.days f = fromSecsF64 (f.mulConst (60 * 60 * 24)) ∧
      F64.weeks f = fromSecsF64 (f.mulConst (60 * 60 * 24 * 7)) ∧
      F64.months f = fromSecsF64 (f.mulConst (60 * 60 * 24 * 30)) ∧
      F64.years f = fromSecsF64 (f.mulConst (60 * 60 * 24 * 365))) ∧
    ∃ d : Duration, fromSecsF64 (F64.fin x) = some d ∧ d.nanos < 1000000000 ∧
      (d.secs : ℤ) * 10 ^ 9 + (d.nanos : ℤ) = rte (x * 10 ^ 9) ∧
      |(rte (x * 10 ^ 9) : ℚ) - x * 10 ^ 9| ≤ 1 / 2 ∧
      (x * 10 ^ 9 - (⌊x * 10 ^ 9⌋ : ℚ) = 1 / 2 → rte (x * 10 ^ 9) % 2 = 0) := by
  refine ⟨fun f => ⟨rfl, rfl, rfl, rfl, rfl, rfl⟩,
    ⟨(rte (x * 10 ^ 9)).toNat / 10 ^ 9, (rte (x * 10 ^ 9)).toNat % 10 ^ 9⟩, ?_, ?_, ?_,
    rte_err (x * 10 ^ 9), fun ht => rte_even_of_tie ht⟩
  · rw [show fromSecsF64 (F64.fin x) =
        if x < 0 ∨ 2 ^ 64 ≤ x then none
        else some ⟨(rte (x * 10 ^ 9)).toNat / 10 ^ 9, (rte (x * 10 ^ 9)).toNat % 10 ^ 9⟩
        from rfl, if_neg (by push_neg; exact ⟨h0, h1⟩)]
  · exact Nat.mod_lt _ (by norm_num)
  · have hr := rte_nonneg (show (0 : ℚ) ≤ x * 10 ^ 9 by positivity)
    show ((rte (x * 10 ^ 9)).toNat / 10 ^ 9 : ℤ) * 10 ^ 9 +
      ((rte (x * 10 ^ 9)).toNat % 10 ^ 9 : ℤ) = rte (x * 10 ^ 9)
    omega

/-- Witness for C4 amended at the total-seconds value `1/2`. -/
theorem c4_amended_witness :
    ∃ d : Duration, fromSecsF64 (F64.fin (1 / 2)) = some d ∧ d.nanos < 1000000000 ∧
      (d.secs : ℤ) * 10 ^ 9 + (d.nanos : ℤ) = rte ((1 / 2 : ℚ) * 10 ^ 9) ∧
      |(rte ((1 / 2 : ℚ) * 10 ^ 9) : ℚ) - (1 / 2 : ℚ) * 10 ^ 9| ≤ 1 / 2 ∧
      ((1 / 2 : ℚ) * 10 ^ 9 - (⌊(1 / 2 : ℚ) * 10 ^ 9⌋ : ℚ) = 1 / 2 →
        rte ((1 / 2 : ℚ) * 10 ^ 9) % 2 = 0) :=
  (c4_amended (1 / 2) (by norm_num) (by norm_num)).2

/-- C6 counterexample: `0.5.years()` is `(15768000, 0)` — half of the
365-day year factor `31536000`, i.e. 182.5 days — not the claimed
`(15811200, 0)` (the claim's figure adds an extra half day on top of
182.5 days). -/
theorem c6_counterexample :
    F64.years (F64.fin (1 / 2)) = some ⟨15768000, 0⟩ ∧
    F64.years (F64.fin (1 / 2)) ≠ some ⟨15811200, 0⟩ := by
  have h : F64.years (F64.fin (1 / 2)) = some ⟨15768000, 0⟩ := by
    simp only [F64.years, F64.mulConst, fromSecsF64, rte]
    norm_num
    omega
  exact ⟨h, by rw [h]; decide⟩

/-- C6 amended: the fractional conversions at `0.5` yield exactly
`0.5.hours() = (1800, 0)`, `0.5.days() = (43200, 0)`,
`0.5.weeks() = (302400, 0)`, `0.5.months() = (1296000, 0)` and
`0.5.years() = (15768000, 0)`, using the fixed 30-day month and 365-day
year factors. -/
theorem c6_amended :
    F64.hours (F64.fin (1 / 2)) = some ⟨1800, 0⟩ ∧
    F64.days (F64.fin (1 / 2)) = some ⟨43200, 0⟩ ∧
    F64.weeks (F64.fin (1 / 2)) = some ⟨302400, 0⟩ ∧
    F64.months (F64.fin (1 / 2)) = some ⟨1296000, 0⟩ ∧
    F64.years (F64.fin (1 / 2)) = some ⟨15768000, 0⟩ := by
  refine ⟨?_, ?_, ?_, ?_, ?_⟩
  · simp only [F64.hours, F64.mulConst, fromSecsF64, rte]
    norm_num
    omega
  · simp only [F64.days, F64.mulConst, fromSecsF64, rte]
    norm_num
    omega
  · simp only [F64.weeks, F64.mulConst, fromSecsF64, rte]
    norm_num
    omega
  · simp only [F64.months, F64.mulConst, fromSecsF64, rte]
    norm_num
    omega
  · simp only [F64.years, F64.mulConst, fromSecsF64, rte]
    norm_num
    omega

/-- Totality of `from_secs_f64` below the overflow threshold. -/
theorem fromSecsF64_isSome (q : ℚ) (h0 : 0 ≤ q) (h1 : q < 2 ^ 64) :
    (fromSecsF64 (F64.fin q)).isSome := by
  rw [show fromSecsF64 (F64.fin q) =
      if q < 0 ∨ 2 ^ 64 ≤ q then none
      else some ⟨(rte (q * 10 ^ 9)).toNat / 10 ^ 9, (rte (q * 10 ^ 9)).toNat % 10 ^ 9⟩
      from rfl, if_neg (by push_neg; exact ⟨h0, h1⟩)]
  rfl

/-- Panic of `from_secs_f64` on a negative value or at or above the
overflow threshold. -/
theorem fromSecsF64_none (q : ℚ) (h : q < 0 ∨ 2 ^ 64 ≤ q) :
    fromSecsF64 (F64.fin q) = none := by
  rw [show fromSecsF64 (F64.fin q) =
      if q < 0 ∨ 2 ^ 64 ≤ q then none
      else some ⟨(rte (q * 10 ^ 9)).toNat / 10 ^ 9, (rte (q * 10 ^ 9)).toNat % 10 ^ 9⟩
      from rfl, if_pos h]

/-- C9 counterexample: the conversions are NOT total over all
non-negative finite operands — at the exactly representable double
`f = 2^64`, `f.secs()` panics (modelled as `none`) because the seconds
value exceeds the `u64` range. -/
theorem c9_counterexample : F64.secs (F64.fin (2 ^ 64)) = none :=
  fromSecsF64_none (2 ^ 64) (Or.inr (le_refl _))

/-- C9 amended: in a release build every `u64` conversion is total
(overflow wraps, it does not trap), the `f64` sub-second conversions are
total — defined even for NaN and negative operands, with total
nanosecond content equal to the saturating cast of the scaled operand —
and the `f64` conversions of units of one second or larger return a
value whenever the scaled seconds value is safely below `2^64` (below
`2^64 - 1024`, so that the conclusion also holds of the IEEE-rounded
double product; for the seconds unit, which performs no multiplication,
the exact bound `2^64` applies) and panic (`none`) for a NaN operand,
for a negative operand, and whenever the scaled seconds value reaches
`2^64`. -/
theorem c9_amended (q : ℚ) (n : ℕ) :
    (U64.nanos n = ⟨n / 1000000000, n % 1000000000⟩ ∧
     U64.micros n = ⟨n / 1000000, n % 1000000 * 1000⟩ ∧
     U64.millis n = ⟨n / 1000, n % 1000 * 1000000⟩ ∧
     U64.secs n = ⟨n, 0⟩ ∧
     U64.hours n = ⟨3600 * n % 2 ^ 64, 0⟩ ∧
     U64.days n = ⟨86400 * n % 2 ^ 64, 0⟩ ∧
     U64.weeks n = ⟨604800 * n % 2 ^ 64, 0⟩ ∧
     U64.months n = ⟨2592000 * n % 2 ^ 64, 0⟩ ∧
     U64.years n = ⟨31536000 * n % 2 ^ 64, 0⟩) ∧
    (∀ f : F64,
      (F64.nanos f).secs * 1000000000 + (F64.nanos f).nanos = f64AsU32 f ∧
      (F64.micros f).secs * 1000000000 + (F64.micros f).nanos = f64AsU32 (f.mulConst 1000) ∧
      (F64.millis f).secs * 1000000000 + (F64.millis f).nanos = f64AsU32 (f.mulConst 1000000)) ∧
    ((0 ≤ q ∧ q < 2 ^ 64 → (F64.secs (F64.fin q)).isSome) ∧
     (0 ≤ q ∧ q * 3600 < 2 ^ 64 - 1024 → (F64.hours (F64.fin q)).isSome) ∧
     (0 ≤ q ∧ q * 86400 < 2 ^ 64 - 1024 → (F64.days (F64.fin q)).isSome) ∧
     (0 ≤ q ∧ q * 604800 < 2 ^ 64 - 1024 → (F64.weeks (F64.fin q)).isSome) ∧
     (0 ≤ q ∧ q * 2592000 < 2 ^ 64 - 1024 → (F64.months (F64.fin q)).isSome) ∧
     (0 ≤ q ∧ q * 31536000 < 2 ^ 64 - 1024 → (F64.years (F64.fin q)).isSome)) ∧
    ((2 ^ 64 ≤ q → F64.secs (F64.fin q) = none) ∧
     (2 ^ 64 ≤ q * 3600 → F64.hours (F64.fin q) = none) ∧
     (2 ^ 64 ≤ q * 86400 → F64.days (F64.fin q) = none) ∧
     (2 ^ 64 ≤ q * 604800 → F64.weeks (F64.fin q) = none) ∧
     (2 ^ 64 ≤ q * 2592000 → F64.months (F64.fin q) = none) ∧
     (2 ^ 64 ≤ q * 31536000 → F64.years (F64.fin q) = none)) ∧
    (q < 0 →
      F64.secs (F64.fin q) = none ∧ F64.hours (F64.fin q) = none ∧
      F64.days (F64.fin q) = none ∧ F64.weeks (F64.fin q) = none ∧
      F64.months (F64.fin q) = none ∧ F64.years (F64.fin q) = none) ∧
    (F64.secs F64.nan = none ∧ F64.hours F64.nan = none ∧ F64.days F64.nan = none ∧
     F64.weeks F64.nan = none ∧ F64.months F64.nan = none ∧ F64.years F64.nan = none) := by
  refine ⟨⟨rfl, rfl, rfl, rfl, rfl, rfl, rfl, rfl, rfl⟩,
    fun f => ⟨Duration.new_zero_total _, Duration.new_zero_total _, Duration.new_zero_total _⟩,
    ⟨fun h => fromSecsF64_isSome q h.1 h.2, fun h => ?_, fun h => ?_, fun h => ?_,
      fun h => ?_, fun h => ?_⟩,
    ⟨fun h => fromSecsF64_none q (Or.inr h), fun h => ?_, fun h => ?_, fun h => ?_,
      fun h => ?_, fun h => ?_⟩,
    fun hq => ⟨fromSecsF64_none q (Or.inl hq),
      fromSecsF64_none (q * (60 * 60)) (Or.inl (mul_neg_of_neg_of_pos hq (by norm_num))),
      fromSecsF64_none (q * (60 * 60 * 24)) (Or.inl (mul_neg_of_neg_of_pos hq (by norm_num))),
      fromSecsF64_none (q * (60 * 60 * 24 * 7)) (Or.inl (mul_neg_of_neg_of_pos hq (by norm_num))),
      fromSecsF64_none (q * (60 * 60 * 24 * 30)) (Or.inl (mul_neg_of_neg_of_pos hq (by norm_num))),
      fromSecsF64_none (q * (60 * 60 * 24 * 365)) (Or.inl (mul_neg_of_neg_of_pos hq (by norm_num)))⟩,
    ⟨rfl, rfl, rfl, rfl, rfl, rfl⟩⟩
  · show (fromSecsF64 (F64.fin (q * (60 * 60)))).isSome
    rw [show (q * (60 * 60) : ℚ) = q * 3600 by norm_num]
    exact fromSecsF64_isSome (q * 3600) (mul_nonneg h.1 (by norm_num)) (by linarith [h.2])
  · show (fromSecsF64 (F64.fin (q * (60 * 60 * 24)))).isSome
    rw [show (q * (60 * 60 * 24) : ℚ) = q * 86400 by norm_num]
    exact fromSecsF64_isSome (q * 86400) (mul_nonneg h.1 (by norm_num)) (by linarith [h.2])
  · show (fromSecsF64 (F64.fin (q * (60 * 60 * 24 * 7)))).isSome
    rw [show (q * (60 * 60 * 24 * 7) : ℚ) = q * 604800 by norm_num]
    exact fromSecsF64_isSome (q * 604800) (mul_nonneg h.1 (by norm_num)) (by linarith [h.2])
  · show (fromSecsF64 (F64.fin (q * (60 * 60 * 24 * 30)))).isSome
    rw [show (q * (60 * 60 * 24 * 30) : ℚ) = q * 2592000 by norm_num]
    exact fromSecsF64_isSome (q * 2592000) (mul_nonneg h.1 (by norm_num)) (by linarith [h.2])
  · show (fromSecsF64 (F64.fin (q * (60 * 60 * 24 * 365)))).isSome
    rw [show (q * (60 * 60 * 24 * 365) : ℚ) = q * 31536000 by norm_num]
    exact fromSecsF64_isSome (q * 31536000) (mul_nonneg h.1 (by norm_num)) (by linarith [h.2])
  · show fromSecsF64 (F64.fin (q * (60 * 60))) = none
    rw [show (q * (60 * 60) : ℚ) = q * 3600 by norm_num]
    exact fromSecsF64_none (q * 3600) (Or.inr h)
  · show fromSecsF64 (F64.fin (q * (60 * 60 * 24))) = none
    rw [show (q * (60 * 60 * 24) : ℚ) = q * 86400 by norm_num]
    exact fromSecsF64_none (q * 86400) (Or.inr h)
  · show fromSecsF64 (F64.fin (q * (60 * 60 * 24 * 7))) = none
    rw [show (q * (60 * 60 * 24 * 7) : ℚ) = q * 604800 by norm_num]
    exact fromSecsF64_none (q * 604800) (Or.inr h)
  · show fromSecsF64 (F64.fin (q * (60 * 60 * 24 * 30))) = none
    rw [show (q * (60 * 60 * 24 * 30) : ℚ) = q * 2592000 by norm_num]
    exact fromSecsF64_none (q * 2592000) (Or.inr h)
  · show fromSecsF64 (F64.fin (q * (60 * 60 * 24 * 365))) = none
    rw [show (q * (60 * 60 * 24 * 365) : ℚ) = q * 31536000 by norm_num]
    exact fromSecsF64_none (q * 31536000) (Or.inr h)

/-- Witness for C9 amended at concrete inputs exercising the defined,
overflowing and negative cases. -/
theorem c9_amended_witness :
    (F64.secs (F64.fin 1)).isSome ∧ (F64.hours (F64.fin 1)).isSome ∧
    F64.hours (F64.fin (2 ^ 60)) = none ∧ F64.years (F64.fin (-1)) = none := by
  refine ⟨?_, ?_, ?_, ?_⟩
  · exact (c9_amended 1 0).2.2.1.1 ⟨by norm_num, by norm_num⟩
  · exact (c9_amended 1 0).2.2.1.2.1 ⟨by norm_num, by norm_num⟩
  · exact (c9_amended (2 ^ 60) 0).2.2.2.1.2.1 (by norm_num)
  · exact ((c9_amended (-1) 0).2.2.2.2.1 (by norm_num)).2.2.2.2.2
